import Mathlib

/-!
Verification of the Bombandak client-side aggregation and caching layer.

Shallow embedding of the TypeScript source:
* NFTDataContext.tsx  — shared data context: fetchSingleNFTData, fetchAllNFTData,
  globalStats, forceRefresh and the CACHE_DURATION guard.
* GlobalStats.tsx     — calculateGlobalStats (second revision in the file, the one
  using the reconciled alive predicate and the per-alive-token average).
* Leaderboard.tsx     — fetch loop, realLifetime computation, getFilteredData
  rankings and the status badge.
* NFTCard.tsx         — card status classification (both revisions).
* TransferModal.tsx   — handleTransfer client-side validation.
* ViewMyNFTs.tsx      — checkUserNFTs (direct ownerOf) and checkUserNFTsFromContext
  (cached ownerHistory) ownership resolution, and the strategy selector.
* unnamed/part_003 and unnamed/part_004 — the sequential leaderboard fetch passes
  with per-token cache, throttling sleeps and failure backoff.

Machine integers are modelled as Nat / Int (the quantities involved are token
counts, unix timestamps and second counts, far from any overflow boundary in the
source), JavaScript floats used for averages as Rat, and fallible contract reads
as Option-valued oracles.  React state updates are modelled as immediately
visible sequential state.
-/

namespace Bombandak

/-- Decoded result of the getNFTData contract call, in tuple order:
expiryTime, transferCount, ownerHistory, isAlive, isDead, timeLeft. -/
structure RawNFT where
  expiryTime : Int
  transferCount : Nat
  ownerHistory : List String
  isAlive : Bool
  isDead : Bool
  timeLeft : Int
deriving Repr, DecidableEq

/-- The reconciled liveness predicate isAlive AND (NOT isDead) AND timeLeft > 0,
as written in GlobalStats.tsx (calculateGlobalStats, isNFTAlive) and in the
Leaderboard.tsx status badge. -/
def effectiveAlive (isAlive isDead : Bool) (timeLeft : Int) : Bool :=
  isAlive && !isDead && decide (0 < timeLeft)

/-- The isReallyAlive flag computed by fetchSingleNFTData in NFTDataContext.tsx:
isAlive AND timeLeft > 0, with no isDead conjunct. -/
def isReallyAlive (isAlive : Bool) (timeLeft : Int) : Bool :=
  isAlive && decide (0 < timeLeft)

/-- The isReallyDead flag computed by fetchSingleNFTData in NFTDataContext.tsx:
isDead OR timeLeft <= 0 OR NOT isAlive. -/
def isReallyDead (isAlive isDead : Bool) (timeLeft : Int) : Bool :=
  isDead || decide (timeLeft ≤ 0) || !isAlive

/-- Status badge of NFTCard.tsx (first revision, line 152): the condition is
isAlive AND timeLeft > 0, ignoring isDead. -/
def nftCardBadge (isAlive : Bool) (timeLeft : Int) : String :=
  if isAlive && decide (0 < timeLeft) then "TICKING" else "EXPLODED"

/-- Status label of NFTCard.tsx (second revision, line 351): the text is chosen
from the raw isAlive flag alone. -/
def nftCardLabelV2 (isAlive : Bool) : String :=
  if isAlive then "ALIVE" else "EXPLODED"

/-- Status badge of Leaderboard.tsx (lines 287-293): the full reconciled
predicate isAlive AND NOT isDead AND timeLeft > 0. -/
def leaderboardBadge (isAlive isDead : Bool) (timeLeft : Int) : String :=
  if isAlive && !isDead && decide (0 < timeLeft) then "ALIVE" else "EXPLODED"

/-! ## NFTDataContext.tsx: fetchSingleNFTData, fetchAllNFTData and globalStats -/

/-- Token record produced by fetchSingleNFTData in NFTDataContext.tsx. -/
structure NFTData where
  tokenId : Nat
  transferCount : Nat
  realLifetime : Int
  timeLeft : Int
  isAlive : Bool
  isDead : Bool
  ownerHistory : List String
deriving Repr, DecidableEq

/-- fetchSingleNFTData (NFTDataContext.tsx lines 140-202): combines a getNFTData
read with the mintTime taken from the nftData struct read; a failure of either
read yields null (none here).  The stored flags are the corrected
isReallyAlive / isReallyDead values, and realLifetime is clamped to zero. -/
def fetchSingleNFTData (now : Int) (tokenId : Nat) (readResult : Option (RawNFT × Int)) :
    Option NFTData :=
  readResult.map (fun rm =>
    let r := rm.1
    let mintTime := rm.2
    let reallyAlive := isReallyAlive r.isAlive r.timeLeft
    let reallyDead := isReallyDead r.isAlive r.isDead r.timeLeft
    let realLifetime : Int :=
      if reallyDead then r.expiryTime - mintTime
      else if reallyAlive then now - mintTime
      else r.expiryTime - mintTime
    { tokenId := tokenId
      transferCount := r.transferCount
      realLifetime := max 0 realLifetime
      timeLeft := r.timeLeft
      isAlive := reallyAlive
      isDead := reallyDead
      ownerHistory := r.ownerHistory })

/-- The record list built by fetchAllNFTData (NFTDataContext.tsx lines 205-258):
token ids 1..totalSupply are enumerated in order and only non-null results are
kept (a failed read contributes nothing to the list). -/
def fetchAllNFTDataRecords (totalSupply : Nat) (now : Int)
    (oracle : Nat → Option (RawNFT × Int)) : List NFTData :=
  (List.range totalSupply).filterMap (fun i => fetchSingleNFTData now (i + 1) (oracle (i + 1)))

/-- Derived global statistics of NFTDataContext.tsx (the rewardPool fields,
read directly from a separate balance hook, are omitted). -/
structure CtxGlobalStats where
  totalMinted : Nat
  totalAlive : Nat
  totalDead : Nat
  totalTransfers : Nat
  averageLifetime : Rat
deriving Repr, DecidableEq

/-- The globalStats memo of NFTDataContext.tsx (lines 261-291): when the record
list is empty all counters default to zero; otherwise totalMinted is the number
of fetched records, totalAlive counts isAlive AND timeLeft > 0, totalDead counts
isDead OR timeLeft <= 0, and averageLifetime divides the sum of realLifetime
over ALL records by totalMinted. -/
def ctxGlobalStats (nftData : List NFTData) : CtxGlobalStats :=
  if nftData.length = 0 then
    { totalMinted := 0, totalAlive := 0, totalDead := 0, totalTransfers := 0,
      averageLifetime := 0 }
  else
    let totalMinted := nftData.length
    let totalAlive := (nftData.filter (fun nft => nft.isAlive && decide (0 < nft.timeLeft))).length
    let totalDead := (nftData.filter (fun nft => nft.isDead || decide (nft.timeLeft ≤ 0))).length
    let totalTransfers := nftData.foldl (fun sum nft => sum + nft.transferCount) 0
    let averageLifetime : Rat :=
      if 0 < totalMinted then
        ((nftData.foldl (fun sum nft => sum + nft.realLifetime) 0 : Int) : Rat) / (totalMinted : Rat)
      else 0
    { totalMinted := totalMinted, totalAlive := totalAlive, totalDead := totalDead,
      totalTransfers := totalTransfers, averageLifetime := averageLifetime }

/-! ## GlobalStats.tsx: calculateGlobalStats (second revision) -/

/-- JavaScript Math.round on a (here always finite) float value: round half
toward positive infinity. -/
def jsRound (q : Rat) : Int :=
  (q + 1 / 2).floor

/-- Loop accumulator of calculateGlobalStats in GlobalStats.tsx. -/
structure GSAcc where
  aliveCount : Nat
  deadCount : Nat
  totalTransferCount : Nat
  lifetimes : List Int
  longestRealLifetime : Int
  longestLivingId : Option Nat
deriving Repr, DecidableEq

/-- One iteration of the calculateGlobalStats result loop (GlobalStats.tsx
lines 505-536): a failed read counts as dead and contributes nothing else; a
successful read is classified by the reconciled isNFTAlive predicate, pushes
its timeLeft into the lifetimes list only when alive, updates the
estimated-lifetime champion on strict improvement, and adds its transferCount.
The source updates local mutable variables; the record update here performs the
same assignments. -/
def gsStep (acc : GSAcc) (res : Nat × Option RawNFT) : GSAcc :=
  match res.2 with
  | none => { acc with deadCount := acc.deadCount + 1 }
  | some r =>
    let isNFTAlive := r.isAlive && !r.isDead && decide (0 < r.timeLeft)
    let estimatedLifetime : Int :=
      if isNFTAlive then ((r.transferCount : Int) + 1) * 86400 - r.timeLeft
      else ((r.transferCount : Int) + 1) * 86400
    let updateLongest : Bool := decide (acc.longestRealLifetime < estimatedLifetime)
    { aliveCount := if isNFTAlive then acc.aliveCount + 1 else acc.aliveCount
      deadCount := if isNFTAlive then acc.deadCount else acc.deadCount + 1
      totalTransferCount := acc.totalTransferCount + r.transferCount
      lifetimes := if isNFTAlive then acc.lifetimes ++ [r.timeLeft] else acc.lifetimes
      longestRealLifetime := if updateLongest then estimatedLifetime else acc.longestRealLifetime
      longestLivingId := if updateLongest then some res.1 else acc.longestLivingId }

/-- Derived global statistics of GlobalStats.tsx (rewardPool omitted as above;
averageLifetime is stored through Math.round as in the source). -/
structure GSStats where
  totalMinted : Nat
  totalAlive : Nat
  totalDead : Nat
  totalTransfers : Nat
  averageLifetime : Int
  longestLivingId : Option Nat
  longestLivingLifetime : Int
deriving Repr, DecidableEq

/-- calculateGlobalStats of GlobalStats.tsx (second revision, lines 464-592):
enumerates token ids 1..totalSupply, folds the per-token results, overrides the
champion with getChampionInfo when its token id is positive, and computes
averageLifetime as the rounded mean of the collected alive lifetimes (zero when
the list is empty). -/
def calculateGlobalStats (totalSupply : Nat) (championInfo : Option (Nat × Int))
    (fetch : Nat → Option RawNFT) : GSStats :=
  let results := (List.range totalSupply).map (fun i => (i + 1, fetch (i + 1)))
  let acc := results.foldl gsStep ⟨0, 0, 0, [], 0, none⟩
  let champion : Option Nat × Int :=
    match championInfo with
    | some ci =>
      if 0 < ci.1 then (some ci.1, ci.2) else (acc.longestLivingId, acc.longestRealLifetime)
    | none => (acc.longestLivingId, acc.longestRealLifetime)
  let averageLifetime : Rat :=
    if 0 < acc.lifetimes.length then
      ((acc.lifetimes.foldl (· + ·) 0 : Int) : Rat) / (acc.lifetimes.length : Rat)
    else 0
  { totalMinted := totalSupply
    totalAlive := acc.aliveCount
    totalDead := acc.deadCount
    totalTransfers := acc.totalTransferCount
    averageLifetime := jsRound averageLifetime
    longestLivingId := champion.1
    longestLivingLifetime := champion.2 }

/-- The timeLeft of a per-token result when it is effectively alive,
none otherwise; used to characterise the lifetimes list. -/
def aliveTimeLeftOf (res : Nat × Option RawNFT) : Option Int :=
  match res.2 with
  | some r => if r.isAlive && !r.isDead && decide (0 < r.timeLeft) then some r.timeLeft else none
  | none => none

/-- The timeLeft values of the effectively alive records among token ids
1..totalSupply, in enumeration order. -/
def specAliveTimeLefts (totalSupply : Nat) (fetch : Nat → Option RawNFT) : List Int :=
  (List.range totalSupply).filterMap (fun i => aliveTimeLeftOf (i + 1, fetch (i + 1)))

/-! ## TransferModal.tsx: handleTransfer client-side validation -/

/-- Model of the JavaScript toLowerCase() on the address strings involved
(ASCII hex addresses): lower-case every character. -/
def jsToLower (s : String) : String :=
  ⟨s.data.map Char.toLower⟩

/-- Model of the JavaScript trim(): drop leading and trailing whitespace. -/
def jsTrim (s : String) : String :=
  ⟨((s.data.dropWhile Char.isWhitespace).reverse.dropWhile Char.isWhitespace).reverse⟩

/-- Outcome of a handleTransfer invocation: either a validation rejects the
attempt before the contract write call, or the write call is issued (possibly
after a warning message has been set). -/
inductive TransferOutcome where
  | rejected (message : String) : TransferOutcome
  | writeIssued (warning : Option String) : TransferOutcome
deriving Repr, DecidableEq

/-- The hasOwnedBefore check of handleTransfer: some entry of ownerHistory
equals the recipient address case-insensitively. -/
def hasOwnedBefore (ownerHistory : List String) (toAddress : String) : Bool :=
  ownerHistory.any (fun addr => jsToLower addr == jsToLower toAddress)

/-- The self-transfer comparison of handleTransfer: the recipient equals the
connected sender address case-insensitively; false when no sender is connected
(comparison with undefined in the source). -/
def isSelfTransferTarget (sender : Option String) (toAddress : String) : Bool :=
  match sender with
  | some s => jsToLower toAddress == jsToLower s
  | none => false

/-- handleTransfer of TransferModal.tsx (lines 29-101; the part_007 revision has
the same control flow): empty, syntactically invalid and self-addressed
recipients return before the write; a recipient found in ownerHistory only sets
a warning message and the flow falls through to the transfer call.  The
syntactic validity check (the isAddress function of the external viem library)
is passed in as a predicate, and the connected sender address may be absent
(the self comparison is then false, as with undefined in the source). -/
def handleTransfer (isValidAddress : String → Bool) (sender : Option String)
    (toAddress : String) (nftData : Option (List String)) : TransferOutcome :=
  if jsTrim toAddress = "" then .rejected "Please enter a recipient address"
  else if !(isValidAddress toAddress) then .rejected "Invalid address format"
  else if isSelfTransferTarget sender toAddress then .rejected "Cannot transfer to yourself"
  else
    let warning : Option String :=
      match nftData with
      | some ownerHistory =>
        if hasOwnedBefore ownerHistory toAddress then
          some "Warning: This address has already owned this NFT. It will explode immediately!"
        else none
      | none => none
    .writeIssued warning

/-! ## NFTDataContext.tsx: forceRefresh and the pass guard -/

/-- CACHE_DURATION of NFTDataContext.tsx: 3 minutes in milliseconds. -/
def CACHE_DURATION_ctx : Nat := 3 * 60 * 1000

/-- Scheduler-relevant state of the NFTDataContext provider: the lastRefresh
timestamp (null until a pass completes) and a counter of aggregation passes
started so far (an observer of the model, not a source variable). -/
structure CtxSchedulerState where
  lastRefresh : Option Nat
  passesStarted : Nat
deriving Repr, DecidableEq

/-- The guard of fetchNFTData in fetchAllNFTData (NFTDataContext.tsx line 212):
the pass is skipped only when lastRefresh is a truthy timestamp within
CACHE_DURATION of now; otherwise a pass starts.  No in-flight flag is
consulted (isLoadingNFTs is set by the pass but never read as a guard). -/
def fetchAllNFTDataStep (s : CtxSchedulerState) (now : Nat) : CtxSchedulerState :=
  match s.lastRefresh with
  | some lr =>
    if lr ≠ 0 ∧ now - lr < CACHE_DURATION_ctx then s
    else { s with passesStarted := s.passesStarted + 1 }
  | none => { s with passesStarted := s.passesStarted + 1 }

/-- Completion of a pass sets lastRefresh to the completion time
(NFTDataContext.tsx line 252). -/
def completePass (s : CtxSchedulerState) (now : Nat) : CtxSchedulerState :=
  { s with lastRefresh := some now }

/-- forceRefresh (NFTDataContext.tsx lines 294-308): resets lastRefresh to null
and then invokes fetchAllNFTData, whose guard therefore always starts a pass. -/
def forceRefresh (s : CtxSchedulerState) (now : Nat) : CtxSchedulerState :=
  fetchAllNFTDataStep { s with lastRefresh := none } now

/-! ## ViewMyNFTs.tsx: ownership resolution strategies -/

/-- Per-token underlying state as seen by the ownership resolver: the cached
ownerHistory from the shared context, and the outcome of a direct ownerOf
contract read (none when the call reverts, e.g. for a burned token). -/
structure TokenState where
  tokenId : Nat
  ownerHistory : List String
  ownerOfResult : Option String
deriving Repr, DecidableEq

/-- checkUserNFTsFromContext (ViewMyNFTs.tsx lines 82-99), strategy (a): a
token is owned when the last entry of its cached ownerHistory is a non-empty
string equal to the holder address case-insensitively; no contract call is
made (the function reads only cached data). -/
def checkUserNFTsFromContext (address : String) (nftData : List TokenState) : List Nat :=
  (nftData.filter (fun nft =>
    match nft.ownerHistory.getLast? with
    | some lastOwner => !(lastOwner == "") && (jsToLower lastOwner == jsToLower address)
    | none => false)).map (fun nft => nft.tokenId)

/-- checkUserNFTs (ViewMyNFTs.tsx lines 29-79), strategy (b): a direct ownerOf
read per candidate token; a failed read means not owned. -/
def checkUserNFTs (address : String) (nftData : List TokenState) : List Nat :=
  (nftData.filter (fun nft =>
    match nft.ownerOfResult with
    | some owner => jsToLower owner == jsToLower address
    | none => false)).map (fun nft => nft.tokenId)

/-- The strategy selector of ViewMyNFTs.tsx (lines 102-113): strategy (a) is
chosen when some cached record has a non-empty ownerHistory. -/
def usesContextStrategy (nftData : List TokenState) : Bool :=
  nftData.any (fun nft => decide (0 < nft.ownerHistory.length))

/-! ## Leaderboard rankings (getFilteredData) -/

/-- NFTLeaderboardEntry of Leaderboard.tsx (and of the first revision in
unnamed/part_003); currentOwner defaults to the empty string when the ownerOf
read fails. -/
structure LBEntry where
  tokenId : Nat
  transferCount : Nat
  timeLeft : Int
  realLifetime : Int
  isAlive : Bool
  isDead : Bool
  ownerHistory : List String
  currentOwner : String
deriving Repr, DecidableEq

/-- The three leaderboard tabs. -/
inductive LeaderboardTab where
  | transfers : LeaderboardTab
  | longevity : LeaderboardTab
  | deaths : LeaderboardTab
deriving Repr, DecidableEq

/-- realLifetime as computed by the Leaderboard.tsx fetch loop (lines 66-73):
current time minus mint time for an effectively alive token, expiry time minus
mint time otherwise. -/
def lbRealLifetime (currentTime mintTime expiryTime : Int) (isAlive isDead : Bool)
    (timeLeft : Int) : Int :=
  if isAlive && !isDead && decide (0 < timeLeft) then currentTime - mintTime
  else expiryTime - mintTime

/-- getFilteredData of Leaderboard.tsx (lines 117-141).  The JavaScript
Array.prototype.sort with a numeric comparator (a, b) => b.key - a.key is a
stable descending sort; it is modelled by the stable List.insertionSort with
the relation b.key <= a.key. -/
def getFilteredData (activeTab : LeaderboardTab) (leaderboard : List LBEntry) : List LBEntry :=
  match activeTab with
  | .transfers =>
    (leaderboard.insertionSort (fun a b => b.transferCount ≤ a.transferCount)).take 5
  | .longevity =>
    (leaderboard.insertionSort (fun a b => b.realLifetime ≤ a.realLifetime)).take 5
  | .deaths =>
    ((leaderboard.filter (fun nft =>
        nft.isDead || !nft.isAlive || decide (nft.timeLeft ≤ 0))).insertionSort
      (fun a b => b.realLifetime ≤ a.realLifetime)).take 5

/-- NFTLeaderboardEntry of the second revision in unnamed/part_003 (lines
404-412): no realLifetime field. -/
structure P3v2Entry where
  tokenId : Nat
  transferCount : Nat
  timeLeft : Int
  isAlive : Bool
  isDead : Bool
  ownerHistory : List String
  currentOwner : String
deriving Repr, DecidableEq

/-- getFilteredData of the second revision in unnamed/part_003 (lines 492-516):
top 10, and the deaths tab is sorted descending by transferCount. -/
def getFilteredData_p3v2 (activeTab : LeaderboardTab) (leaderboard : List P3v2Entry) :
    List P3v2Entry :=
  match activeTab with
  | .transfers =>
    (leaderboard.insertionSort (fun a b => b.transferCount ≤ a.transferCount)).take 10
  | .longevity =>
    ((leaderboard.filter (fun nft => nft.isAlive && decide (0 < nft.timeLeft))).insertionSort
      (fun a b => b.timeLeft ≤ a.timeLeft)).take 10
  | .deaths =>
    ((leaderboard.filter (fun nft =>
        nft.isDead || !nft.isAlive || decide (nft.timeLeft ≤ 0))).insertionSort
      (fun a b => b.transferCount ≤ a.transferCount)).take 10

/-! ## Sequential fetch passes with per-token cache (unnamed/part_003 and
unnamed/part_004) -/

/-- A per-token cache entry: the cached data with its fetch timestamp. -/
structure CacheEntry (α : Type) where
  data : α
  timestamp : Nat
deriving Repr, DecidableEq

/-- Lookup in the Map-backed cache. -/
def cacheLookup {α : Type} (cache : List (Nat × CacheEntry α)) (tokenId : Nat) :
    Option (CacheEntry α) :=
  (cache.find? (fun p => p.1 == tokenId)).map (fun p => p.2)

/-- Map.set: replace an existing entry for the key or append a new one. -/
def cacheInsert {α : Type} (cache : List (Nat × CacheEntry α)) (tokenId : Nat)
    (entry : CacheEntry α) : List (Nat × CacheEntry α) :=
  if cache.any (fun p => p.1 == tokenId) then
    cache.map (fun p => if p.1 == tokenId then (tokenId, entry) else p)
  else cache ++ [(tokenId, entry)]

/-- Read-side environment of a sequential pass: the getNFTData oracle (none
models a reverted call), the ownerOf oracle, and the pass time.  The model
reads the clock once per pass. -/
structure SeqEnv where
  dataOracle : Nat → Option RawNFT
  ownerOracle : Nat → Option String
  now : Nat

/-- Observable outcome of (part of) a sequential pass: the collected results,
the cache after the pass, the token ids for which a getNFTData read was issued,
the token ids for which an ownerOf read was issued, and the sleep durations in
order (milliseconds). -/
structure SeqOutcome (α : Type) where
  results : List α
  cache : List (Nat × CacheEntry α)
  reads : List Nat
  ownerReads : List Nat
  sleeps : List Nat
deriving Repr, DecidableEq

/-- The cache-miss path of processNFTsSequentially in unnamed/part_003 (lines
56-121): sleep 100 ms, issue the getNFTData read; on failure sleep a further
1000 ms and move on without recording a result; on success compute the
estimated realLifetime, fetch ownerOf (after another 100 ms sleep) only for an
effectively alive token falling back to the last history entry, cache and
record the result. -/
def seqFetch_p3 (env : SeqEnv) (cache : List (Nat × CacheEntry LBEntry)) (tokenId : Nat) :
    SeqOutcome LBEntry :=
  match env.dataOracle tokenId with
  | none => ⟨[], cache, [tokenId], [], [100, 1000]⟩
  | some r =>
    let alive := r.isAlive && !r.isDead && decide (0 < r.timeLeft)
    let realLifetime : Int :=
      if alive then (r.transferCount : Int) * 86400 + (86400 - r.timeLeft)
      else ((r.transferCount : Int) + 1) * 86400
    let ownerPart : String × List Nat × List Nat :=
      if alive then
        match env.ownerOracle tokenId with
        | some owner => (owner, [tokenId], [100])
        | none => ((r.ownerHistory.getLast?).getD "", [tokenId], [100])
      else ("", [], [])
    let result : LBEntry :=
      ⟨tokenId, r.transferCount, r.timeLeft, realLifetime, r.isAlive, r.isDead,
        r.ownerHistory, ownerPart.1⟩
    ⟨[result], cacheInsert cache tokenId ⟨result, env.now⟩, [tokenId], ownerPart.2.1,
      100 :: ownerPart.2.2⟩

/-- One loop iteration of processNFTsSequentially in unnamed/part_003 (lines
45-122): a cache entry younger than the TTL is served without any contract
read; otherwise the fetch path runs.  The TTL parameter stands for the module
constant CACHE_DURATION. -/
def seqStep_p3 (ttl : Nat) (env : SeqEnv) (cache : List (Nat × CacheEntry LBEntry))
    (tokenId : Nat) : SeqOutcome LBEntry :=
  match cacheLookup cache tokenId with
  | some entry =>
    if env.now - entry.timestamp < ttl then ⟨[entry.data], cache, [], [], []⟩
    else seqFetch_p3 env cache tokenId
  | none => seqFetch_p3 env cache tokenId

/-- processNFTsSequentially of unnamed/part_003 over a list of token ids,
threading the cache and concatenating the traces. -/
def processNFTsSequentially_p3 (ttl : Nat) (env : SeqEnv) (ids : List Nat)
    (cache : List (Nat × CacheEntry LBEntry)) : SeqOutcome LBEntry :=
  match ids with
  | [] => ⟨[], cache, [], [], []⟩
  | tokenId :: rest =>
    let step := seqStep_p3 ttl env cache tokenId
    let tail := processNFTsSequentially_p3 ttl env rest step.cache
    ⟨step.results ++ tail.results, tail.cache, step.reads ++ tail.reads,
      step.ownerReads ++ tail.ownerReads, step.sleeps ++ tail.sleeps⟩

/-- CACHE_DURATION of unnamed/part_003: 2 minutes in milliseconds. -/
def CACHE_DURATION_p3 : Nat := 120000

/-- NFTLeaderboardEntry of unnamed/part_004: no realLifetime, no currentOwner. -/
structure P4Entry where
  tokenId : Nat
  transferCount : Nat
  timeLeft : Int
  isAlive : Bool
  isDead : Bool
  ownerHistory : List String
deriving Repr, DecidableEq

/-- The cache-miss path of processNFTsSequentially in unnamed/part_004 (lines
54-89): sleep 50 ms, issue the single getNFTData read; on failure sleep only a
further 100 ms and move on; on success cache and record the result. -/
def seqFetch_p4 (env : SeqEnv) (cache : List (Nat × CacheEntry P4Entry)) (tokenId : Nat) :
    SeqOutcome P4Entry :=
  match env.dataOracle tokenId with
  | none => ⟨[], cache, [tokenId], [], [50, 100]⟩
  | some r =>
    let result : P4Entry :=
      ⟨tokenId, r.transferCount, r.timeLeft, r.isAlive, r.isDead, r.ownerHistory⟩
    ⟨[result], cacheInsert cache tokenId ⟨result, env.now⟩, [tokenId], [], [50]⟩

/-- One loop iteration of processNFTsSequentially in unnamed/part_004 (lines
43-90). -/
def seqStep_p4 (ttl : Nat) (env : SeqEnv) (cache : List (Nat × CacheEntry P4Entry))
    (tokenId : Nat) : SeqOutcome P4Entry :=
  match cacheLookup cache tokenId with
  | some entry =>
    if env.now - entry.timestamp < ttl then ⟨[entry.data], cache, [], [], []⟩
    else seqFetch_p4 env cache tokenId
  | none => seqFetch_p4 env cache tokenId

/-- processNFTsSequentially of unnamed/part_004 over a list of token ids. -/
def processNFTsSequentially_p4 (ttl : Nat) (env : SeqEnv) (ids : List Nat)
    (cache : List (Nat × CacheEntry P4Entry)) : SeqOutcome P4Entry :=
  match ids with
  | [] => ⟨[], cache, [], [], []⟩
  | tokenId :: rest =>
    let step := seqStep_p4 ttl env cache tokenId
    let tail := processNFTsSequentially_p4 ttl env rest step.cache
    ⟨step.results ++ tail.results, tail.cache, step.reads ++ tail.reads,
      step.ownerReads ++ tail.ownerReads, step.sleeps ++ tail.sleeps⟩

/-- CACHE_DURATION of unnamed/part_004: 5 minutes in milliseconds. -/
def CACHE_DURATION_p4 : Nat := 300000

/-! ## Theorems -/

/-- C1 counterexample: for a record with isAlive = true, isDead = true,
timeLeft = 100 the reconciled predicate classifies it as not alive and the
leaderboard badge shows EXPLODED, yet the card badge shows TICKING, the
fetchSingleNFTData flag isReallyAlive is true, and the second-revision card
label (driven by raw isAlive alone) shows ALIVE.  So the same predicate is not
applied in stats, leaderboard and card rendering, refuting the claim. -/
theorem claim_C1_counterexample :
    effectiveAlive true true 100 = false ∧
    leaderboardBadge true true 100 = "EXPLODED" ∧
    nftCardBadge true 100 = "TICKING" ∧
    isReallyAlive true 100 = true ∧
    nftCardLabelV2 true = "ALIVE" := by
  refine ⟨rfl, rfl, rfl, rfl, rfl⟩

/-- C1 (amended): the leaderboard badge classifies by the reconciled predicate
effectiveAlive, but the card badge and fetchSingleNFTData classify by
isAlive AND timeLeft > 0 without consulting isDead; consequently the card and
the leaderboard disagree exactly on records with isAlive, isDead and a positive
timeLeft, and the second-revision card label depends on raw isAlive alone. -/
theorem claim_C1_amended (a d : Bool) (t : Int) :
    leaderboardBadge a d t = (if effectiveAlive a d t then "ALIVE" else "EXPLODED") ∧
    (nftCardBadge a t = "TICKING" ↔ isReallyAlive a t = true) ∧
    ((nftCardBadge a t = "TICKING" ∧ leaderboardBadge a d t = "EXPLODED") ↔
      (a = true ∧ d = true ∧ 0 < t)) ∧
    nftCardLabelV2 a = (if a then "ALIVE" else "EXPLODED") := by
  refine ⟨rfl, ?_, ?_, rfl⟩
  · by_cases ht : (0 : Int) < t <;>
      cases a <;>
        simp [nftCardBadge, isReallyAlive, ht]
  · by_cases ht : (0 : Int) < t <;>
      cases a <;> cases d <;>
        simp [nftCardBadge, leaderboardBadge, ht]

theorem gsStep_counts (acc : GSAcc) (res : Nat × Option RawNFT) :
    (gsStep acc res).aliveCount + (gsStep acc res).deadCount
      = acc.aliveCount + acc.deadCount + 1 := by
  rcases res with ⟨id, r⟩
  cases r with
  | none => simp [gsStep]; omega
  | some r =>
    simp only [gsStep]
    cases hb : r.isAlive && !r.isDead && decide (0 < r.timeLeft) <;> simp <;> omega

theorem gsFold_counts (results : List (Nat × Option RawNFT)) (acc : GSAcc) :
    (results.foldl gsStep acc).aliveCount + (results.foldl gsStep acc).deadCount
      = acc.aliveCount + acc.deadCount + results.length := by
  induction results generalizing acc with
  | nil => simp
  | cons head tail ih =>
    rw [List.foldl_cons, ih]
    have h := gsStep_counts acc head
    simp only [List.length_cons]
    omega

theorem gsStep_lifetimes (acc : GSAcc) (res : Nat × Option RawNFT) :
    (gsStep acc res).lifetimes = acc.lifetimes ++ (aliveTimeLeftOf res).toList := by
  rcases res with ⟨id, r⟩
  cases r with
  | none => simp [gsStep, aliveTimeLeftOf]
  | some r =>
    simp only [gsStep, aliveTimeLeftOf]
    cases hb : r.isAlive && !r.isDead && decide (0 < r.timeLeft) <;> simp

theorem gsFold_lifetimes (results : List (Nat × Option RawNFT)) (acc : GSAcc) :
    (results.foldl gsStep acc).lifetimes
      = acc.lifetimes ++ results.filterMap aliveTimeLeftOf := by
  induction results generalizing acc with
  | nil => simp
  | cons head tail ih =>
    rw [List.foldl_cons, ih, gsStep_lifetimes]
    cases h : aliveTimeLeftOf head <;> simp [List.filterMap_cons, h]

/-- C2 counterexample: with totalSupply = 1 and the single token read failing,
the NFTDataContext aggregation drops the token entirely: totalMinted is 0, not
the enumerated supply 1, and totalDead is 0, so the failed token is not counted
as dead, refuting the claim for this completed pass. -/
theorem claim_C2_counterexample :
    ¬ ((ctxGlobalStats (fetchAllNFTDataRecords 1 0 (fun _ => none))).totalMinted = 1 ∧
       (ctxGlobalStats (fetchAllNFTDataRecords 1 0 (fun _ => none))).totalDead = 1) := by
  decide

/-- C2 (amended): the invariant holds for the GlobalStats.tsx aggregation pass:
for every totalSupply and every read outcome, totalAlive + totalDead =
totalMinted = totalSupply, with failed reads counted as dead.  (The
NFTDataContext pass instead drops failed reads from totalMinted, as the
counterexample shows.) -/
theorem claim_C2_amended (totalSupply : Nat) (championInfo : Option (Nat × Int))
    (fetch : Nat → Option RawNFT) :
    (calculateGlobalStats totalSupply championInfo fetch).totalAlive
        + (calculateGlobalStats totalSupply championInfo fetch).totalDead
      = (calculateGlobalStats totalSupply championInfo fetch).totalMinted ∧
    (calculateGlobalStats totalSupply championInfo fetch).totalMinted = totalSupply := by
  have h := gsFold_counts ((List.range totalSupply).map (fun i => (i + 1, fetch (i + 1))))
    ⟨0, 0, 0, [], 0, none⟩
  simp only [List.length_map, List.length_range] at h
  constructor
  · simp only [calculateGlobalStats]
    omega
  · simp [calculateGlobalStats]

/-- C3 counterexample: with a single token whose read succeeds but which is not
effectively alive (isAlive = false, timeLeft = 0, expiryTime = 500, mintTime =
0), the NFTDataContext aggregation reports zero alive records yet an
averageLifetime of 500: it divides the realLifetime sum of ALL records by the
total record count instead of returning 0 when no record is alive. -/
theorem claim_C3_counterexample :
    (ctxGlobalStats (fetchAllNFTDataRecords 1 0
        (fun _ => some (⟨500, 0, [], false, false, 0⟩, 0)))).totalAlive = 0 ∧
    (ctxGlobalStats (fetchAllNFTDataRecords 1 0
        (fun _ => some (⟨500, 0, [], false, false, 0⟩, 0)))).averageLifetime = 500 := by
  have hr : List.range 1 = [0] := rfl
  constructor
  · decide
  · simp [ctxGlobalStats, fetchAllNFTDataRecords, fetchSingleNFTData, isReallyAlive,
      isReallyDead, hr, List.filterMap_cons]

/-- C3 (amended): the GlobalStats.tsx aggregation computes averageLifetime as
the (half-up rounded, as Math.round in the source) arithmetic mean of timeLeft
over the effectively alive records only, and it is exactly 0 when no record is
effectively alive.  (The NFTDataContext aggregation instead averages
realLifetime over all records, as the counterexample shows.) -/
theorem claim_C3_amended (totalSupply : Nat) (championInfo : Option (Nat × Int))
    (fetch : Nat → Option RawNFT) :
    (calculateGlobalStats totalSupply championInfo fetch).averageLifetime
      = (if specAliveTimeLefts totalSupply fetch = [] then 0
         else jsRound ((((specAliveTimeLefts totalSupply fetch).foldl (· + ·) 0 : Int) : Rat)
            / ((specAliveTimeLefts totalSupply fetch).length : Rat))) := by
  have hl : (((List.range totalSupply).map (fun i => (i + 1, fetch (i + 1)))).foldl gsStep
      ⟨0, 0, 0, [], 0, none⟩).lifetimes = specAliveTimeLefts totalSupply fetch := by
    rw [gsFold_lifetimes]
    simp [specAliveTimeLefts, List.filterMap_map, Function.comp_def]
  show jsRound _ = _
  rw [hl]
  rcases h : specAliveTimeLefts totalSupply fetch with _ | ⟨x, xs⟩
  · simp [jsRound, Rat.floor_def']
  · simp

/-- C4 counterexample: a syntactically valid recipient that differs from the
sender but appears in the ownerHistory of the token is NOT rejected: the
hasOwnedBefore branch sets a warning and handleTransfer still issues the
contract write call, refuting the claim that the write is never sent for such
a recipient. -/
theorem claim_C4_counterexample :
    hasOwnedBefore ["0xAAAA", "0xCCCC"] "0xAAAA" = true ∧
    handleTransfer (fun _ => true) (some "0xBBBB") "0xAAAA" (some ["0xAAAA", "0xCCCC"])
      = TransferOutcome.writeIssued
          (some "Warning: This address has already owned this NFT. It will explode immediately!") := by
  exact ⟨by decide, by decide⟩

/-- C4 (amended): for a recipient that passes the empty, syntactic-validity and
self checks but appears (case-insensitively) in the ownerHistory, the client
flags the attempt by setting the warning message, but does not reject it: the
contract write call is still issued. -/
theorem claim_C4_amended (isValidAddress : String → Bool) (sender : Option String)
    (toAddress : String) (ownerHistory : List String)
    (h1 : ¬ jsTrim toAddress = "")
    (h2 : isValidAddress toAddress = true)
    (h3 : isSelfTransferTarget sender toAddress = false)
    (h4 : hasOwnedBefore ownerHistory toAddress = true) :
    handleTransfer isValidAddress sender toAddress (some ownerHistory)
      = TransferOutcome.writeIssued
          (some "Warning: This address has already owned this NFT. It will explode immediately!") := by
  unfold handleTransfer
  rw [if_neg h1, h2, h3]
  simp [h4]

/-- C4 amended witness: a concrete valid recipient already present in the
token history is flagged with the warning while the write is still issued. -/
theorem claim_C4_amended_witness :
    handleTransfer (fun _ => true) none "0xAa" (some ["0xAA"])
      = TransferOutcome.writeIssued
          (some "Warning: This address has already owned this NFT. It will explode immediately!") :=
  claim_C4_amended (fun _ => true) none "0xAa" ["0xAA"]
    (by decide) rfl (by decide) (by decide)

/-- C10: every transfer attempt with an empty recipient, a syntactically
invalid recipient, or a recipient equal to the connected sender address
(case-insensitively) is rejected by handleTransfer before the contract write
call; the write is never issued in these cases. -/
theorem claim_C10_validation_rejects (isValidAddress : String → Bool)
    (sender : Option String) (toAddress : String) (nftData : Option (List String))
    (h : jsTrim toAddress = "" ∨ isValidAddress toAddress = false ∨
         isSelfTransferTarget sender toAddress = true) :
    ∃ msg, handleTransfer isValidAddress sender toAddress nftData
      = TransferOutcome.rejected msg := by
  unfold handleTransfer
  rcases h with h | h | h
  · rw [if_pos h]
    exact ⟨_, rfl⟩
  · by_cases h0 : jsTrim toAddress = ""
    · rw [if_pos h0]; exact ⟨_, rfl⟩
    · rw [if_neg h0, h]
      exact ⟨_, rfl⟩
  · by_cases h0 : jsTrim toAddress = ""
    · rw [if_pos h0]; exact ⟨_, rfl⟩
    · rw [if_neg h0]
      cases hv : isValidAddress toAddress
      · exact ⟨_, rfl⟩
      · rw [h]
        exact ⟨_, rfl⟩

/-- C10 witness: a concrete self-transfer attempt (valid address equal to the
connected sender up to case) is rejected before the write call. -/
theorem claim_C10_validation_rejects_witness :
    ∃ msg, handleTransfer (fun _ => true) (some "0xAB") "0xab" none
      = TransferOutcome.rejected msg :=
  claim_C10_validation_rejects (fun _ => true) (some "0xAB") "0xab" none
    (Or.inr (Or.inr (by decide)))

/-- C5 counterexample: two forceRefresh invocations in rapid succession (the
second arriving before the first pass completes, so lastRefresh is still null)
start two aggregation passes, not one: there is no in-flight coalescing. -/
theorem claim_C5_counterexample :
    (forceRefresh (forceRefresh ⟨some 5000, 0⟩ 0) 1).passesStarted = 2 ∧ (2 : Nat) ≠ 1 := by
  exact ⟨rfl, by decide⟩

/-- C5 (amended): two forceRefresh calls in rapid succession each start an
aggregation pass (the guard consults only lastRefresh, which forceRefresh
itself clears and which is set again only when a pass completes; no in-flight
flag exists), so re-entrant forced calls are not coalesced.  Coalescing happens
only for a non-forced fetch arriving within CACHE_DURATION of a completed
pass, which is a no-op. -/
theorem claim_C5_amended :
    (∀ (s : CtxSchedulerState) (t1 t2 : Nat),
       (forceRefresh (forceRefresh s t1) t2).passesStarted = s.passesStarted + 2) ∧
    (∀ (s : CtxSchedulerState) (now lr : Nat), s.lastRefresh = some lr → lr ≠ 0 →
       now - lr < CACHE_DURATION_ctx → fetchAllNFTDataStep s now = s) := by
  constructor
  · intro s t1 t2
    simp [forceRefresh, fetchAllNFTDataStep]
  · intro s now lr hlr h0 hlt
    rcases s with ⟨ols, p⟩
    cases hlr
    simp [fetchAllNFTDataStep, h0, hlt]

/-- C5 amended witness: a concrete double force refresh starts two passes, and
a concrete non-forced fetch 2 seconds after a completed pass is skipped. -/
theorem claim_C5_amended_witness :
    (forceRefresh (forceRefresh ⟨none, 0⟩ 10) 20).passesStarted = 0 + 2 ∧
    fetchAllNFTDataStep ⟨some 1000, 3⟩ 3000 = ⟨some 1000, 3⟩ :=
  ⟨claim_C5_amended.1 ⟨none, 0⟩ 10 20,
   claim_C5_amended.2 ⟨some 1000, 3⟩ 3000 1000 rfl (by decide) (by decide)⟩

/-- C6 counterexample: against one and the same underlying state in which token
1 has cached ownerHistory [A] but its direct ownerOf read fails (a burned
token whose final holder was A), strategy (a) reports the token as owned by A
while strategy (b) does not, so the two strategies do not return the same
token set for every shared state. -/
theorem claim_C6_counterexample :
    checkUserNFTsFromContext "0xA" [⟨1, ["0xA"], none⟩]
      ≠ checkUserNFTs "0xA" [⟨1, ["0xA"], none⟩] := by
  decide

/-- C6 (amended): when the underlying state is coherent for every candidate
token — the cached ownerHistory has a non-empty last entry and the direct
ownerOf read succeeds with an address equal to it case-insensitively — the two
strategies return the same token list; and whenever every candidate has a
non-empty cached history (the sufficiency condition) and there is at least one
candidate, the selector chooses strategy (a), which issues no contract calls. -/
theorem claim_C6_amended (address : String) (nftData : List TokenState)
    (hcoh : ∀ nft ∈ nftData, ∃ lastOwner owner,
      nft.ownerHistory.getLast? = some lastOwner ∧ ¬ lastOwner = "" ∧
      nft.ownerOfResult = some owner ∧ jsToLower owner = jsToLower lastOwner) :
    checkUserNFTsFromContext address nftData = checkUserNFTs address nftData ∧
    (nftData ≠ [] → usesContextStrategy nftData = true) := by
  constructor
  · unfold checkUserNFTsFromContext checkUserNFTs
    congr 1
    apply List.filter_congr
    intro nft hmem
    rcases hcoh nft hmem with ⟨lastOwner, owner, hl, hne, ho, heq⟩
    rw [hl, ho]
    simp [heq, hne]
  · intro hne
    rcases nftData with _ | ⟨nft, rest⟩
    · exact absurd rfl hne
    · rcases hcoh nft (List.mem_cons_self nft rest) with ⟨lastOwner, owner, hl, _, _, _⟩
      have : nft.ownerHistory ≠ [] := by
        intro hnil
        rw [hnil] at hl
        exact Option.noConfusion hl
      unfold usesContextStrategy
      rw [List.any_cons]
      have h0 : 0 < nft.ownerHistory.length := List.length_pos.mpr this
      simp [h0]

/-- C6 amended witness: a concrete coherent state (token 1 held by 0xA, cached
history ending in 0xa) on which both strategies return the token and the
selector picks the context strategy. -/
theorem claim_C6_amended_witness :
    checkUserNFTsFromContext "0xA" [⟨1, ["0xB", "0xa"], some "0xA"⟩]
        = checkUserNFTs "0xA" [⟨1, ["0xB", "0xa"], some "0xA"⟩] ∧
    (([⟨1, ["0xB", "0xa"], some "0xA"⟩] : List TokenState) ≠ [] →
      usesContextStrategy [⟨1, ["0xB", "0xa"], some "0xA"⟩] = true) := by
  have h := claim_C6_amended "0xA" [⟨1, ["0xB", "0xa"], some "0xA"⟩]
    (by
      intro nft hmem
      rw [List.mem_singleton] at hmem
      subst hmem
      exact ⟨"0xa", "0xA", rfl, by decide, rfl, by decide⟩)
  exact ⟨h.1, h.2⟩

/-- Helper: the leaderboard deaths filter condition is exactly the negation of
the reconciled effective-alive predicate. -/
theorem deadFilter_eq_not_effectiveAlive (a d : Bool) (t : Int) :
    (d || !a || decide (t ≤ 0)) = !(effectiveAlive a d t) := by
  have ht : decide (t ≤ 0) = !decide (0 < t) := by
    by_cases h : (0 : Int) < t
    · simp [h]
    · simp [h]
      omega
  cases a <;> cases d <;> simp [effectiveAlive, ht]

/-- C7: in the sequential pass, a token whose cache entry satisfies
now - fetchedAt < TTL is served from the cache with no contract read issued
(getNFTData and ownerOf alike) and the cache unchanged, while a token whose
entry has now - fetchedAt >= TTL triggers a fresh getNFTData read. -/
theorem claim_C7_cache_ttl (ttl : Nat) (env : SeqEnv)
    (cache : List (Nat × CacheEntry LBEntry)) (tokenId : Nat) (entry : CacheEntry LBEntry)
    (hfound : cacheLookup cache tokenId = some entry) :
    (env.now - entry.timestamp < ttl →
      processNFTsSequentially_p3 ttl env [tokenId] cache
        = ⟨[entry.data], cache, [], [], []⟩) ∧
    (ttl ≤ env.now - entry.timestamp →
      (processNFTsSequentially_p3 ttl env [tokenId] cache).reads = [tokenId]) := by
  constructor
  · intro hfresh
    simp [processNFTsSequentially_p3, seqStep_p3, hfound, hfresh]
  · intro hstale
    have hnot : ¬ env.now - entry.timestamp < ttl := Nat.not_lt.mpr hstale
    simp only [processNFTsSequentially_p3, seqStep_p3, hfound, hnot, if_false]
    cases hdata : env.dataOracle tokenId <;> simp [seqFetch_p3, hdata]

/-- C7 witness: the scenario of the claim with TTL = 180000 ms: a cache entry
for token 5 fetched at T = 0 is served without any read at T = 120000 ms, and
a lookup at T = 200000 ms issues a fresh getNFTData read. -/
theorem claim_C7_cache_ttl_witness :
    (processNFTsSequentially_p3 180000 ⟨fun _ => none, fun _ => none, 120000⟩ [5]
        [(5, ⟨⟨5, 0, 7, 7, true, false, [], ""⟩, 0⟩)]
      = ⟨[⟨5, 0, 7, 7, true, false, [], ""⟩],
          [(5, ⟨⟨5, 0, 7, 7, true, false, [], ""⟩, 0⟩)], [], [], []⟩) ∧
    (processNFTsSequentially_p3 180000 ⟨fun _ => none, fun _ => none, 200000⟩ [5]
        [(5, ⟨⟨5, 0, 7, 7, true, false, [], ""⟩, 0⟩)]).reads = [5] :=
  ⟨(claim_C7_cache_ttl 180000 ⟨fun _ => none, fun _ => none, 120000⟩
      [(5, ⟨⟨5, 0, 7, 7, true, false, [], ""⟩, 0⟩)] 5 ⟨⟨5, 0, 7, 7, true, false, [], ""⟩, 0⟩
      (by decide)).1 (by decide),
   (claim_C7_cache_ttl 180000 ⟨fun _ => none, fun _ => none, 200000⟩
      [(5, ⟨⟨5, 0, 7, 7, true, false, [], ""⟩, 0⟩)] 5 ⟨⟨5, 0, 7, 7, true, false, [], ""⟩, 0⟩
      (by decide)).2 (by decide)⟩

/-- C8 counterexample: in the part_003 second-revision leaderboard the
hall-of-death tab sorts by transferCount, not by realLifetime: for two
effectively dead tokens where token 1 (transferCount 5, expiry 10, mint 0,
hence realLifetime 10 by the Leaderboard.tsx formula) and token 2
(transferCount 1, expiry 999, mint 0, hence realLifetime 999), the derived
hall-of-death ranking lists token 1 before token 2 although its realLifetime
is strictly smaller — the ranking is not descending in realLifetime. -/
theorem claim_C8_counterexample :
    (getFilteredData_p3v2 LeaderboardTab.deaths
        [⟨1, 5, 0, false, false, [], ""⟩, ⟨2, 1, 0, false, false, [], ""⟩]).map
          (fun nft => nft.tokenId) = [1, 2] ∧
    lbRealLifetime 1000 0 10 false false 0 < lbRealLifetime 1000 0 999 false false 0 := by
  exact ⟨by decide, by decide⟩

/-- C8 (amended): in the Leaderboard.tsx getFilteredData, the most-transfers
ranking is descending in transferCount, truncated to the fixed top 5, and
drawn from the record set; the hall-of-death ranking contains only effectively
dead records of the set, is descending in realLifetime, and is truncated to
the same top 5.  (The part_003 second-revision variant instead sorts its
hall-of-death by transferCount and truncates to 10, as the counterexample
shows.) -/
theorem claim_C8_amended (leaderboard : List LBEntry) :
    List.Pairwise (fun a b => b.transferCount ≤ a.transferCount)
        (getFilteredData LeaderboardTab.transfers leaderboard) ∧
    (getFilteredData LeaderboardTab.transfers leaderboard).length ≤ 5 ∧
    (∀ nft ∈ getFilteredData LeaderboardTab.transfers leaderboard, nft ∈ leaderboard) ∧
    List.Pairwise (fun a b => b.realLifetime ≤ a.realLifetime)
        (getFilteredData LeaderboardTab.deaths leaderboard) ∧
    (getFilteredData LeaderboardTab.deaths leaderboard).length ≤ 5 ∧
    (∀ nft ∈ getFilteredData LeaderboardTab.deaths leaderboard,
       nft ∈ leaderboard ∧ effectiveAlive nft.isAlive nft.isDead nft.timeLeft = false) := by
  haveI : IsTotal LBEntry (fun a b => b.transferCount ≤ a.transferCount) :=
    ⟨fun a b => Nat.le_total b.transferCount a.transferCount⟩
  haveI : IsTrans LBEntry (fun a b => b.transferCount ≤ a.transferCount) :=
    ⟨fun a b c hab hbc => Nat.le_trans hbc hab⟩
  haveI : IsTotal LBEntry (fun a b => b.realLifetime ≤ a.realLifetime) :=
    ⟨fun a b => Int.le_total b.realLifetime a.realLifetime⟩
  haveI : IsTrans LBEntry (fun a b => b.realLifetime ≤ a.realLifetime) :=
    ⟨fun a b c hab hbc => Int.le_trans hbc hab⟩
  refine ⟨?_, ?_, ?_, ?_, ?_, ?_⟩
  · exact (List.sorted_insertionSort _ leaderboard).sublist (List.take_sublist 5 _)
  · exact List.length_take_le 5 _
  · intro nft h
    exact (List.mem_insertionSort _).mp (List.mem_of_mem_take h)
  · exact (List.sorted_insertionSort _ _).sublist (List.take_sublist 5 _)
  · exact List.length_take_le 5 _
  · intro nft h
    have h2 := (List.mem_insertionSort _).mp (List.mem_of_mem_take h)
    rw [List.mem_filter] at h2
    refine ⟨h2.1, ?_⟩
    have h3 := h2.2
    rw [deadFilter_eq_not_effectiveAlive] at h3
    cases he : effectiveAlive nft.isAlive nft.isDead nft.timeLeft
    · rfl
    · rw [he] at h3
      exact absurd h3 (by decide)

/-- C8 amended witness: the amended statement evaluated on a concrete
two-entry leaderboard. -/
theorem claim_C8_amended_witness :
    List.Pairwise (fun a b => b.transferCount ≤ a.transferCount)
        (getFilteredData LeaderboardTab.transfers
          [⟨1, 5, 0, 10, false, false, [], ""⟩, ⟨2, 1, 0, 999, false, false, [], ""⟩]) ∧
    (getFilteredData LeaderboardTab.transfers
        [⟨1, 5, 0, 10, false, false, [], ""⟩, ⟨2, 1, 0, 999, false, false, [], ""⟩]).length ≤ 5 ∧
    (∀ nft ∈ getFilteredData LeaderboardTab.transfers
        [⟨1, 5, 0, 10, false, false, [], ""⟩, ⟨2, 1, 0, 999, false, false, [], ""⟩],
       nft ∈ [⟨1, 5, 0, 10, false, false, [], ""⟩, ⟨2, 1, 0, 999, false, false, [], ""⟩]) ∧
    List.Pairwise (fun a b => b.realLifetime ≤ a.realLifetime)
        (getFilteredData LeaderboardTab.deaths
          [⟨1, 5, 0, 10, false, false, [], ""⟩, ⟨2, 1, 0, 999, false, false, [], ""⟩]) ∧
    (getFilteredData LeaderboardTab.deaths
        [⟨1, 5, 0, 10, false, false, [], ""⟩, ⟨2, 1, 0, 999, false, false, [], ""⟩]).length ≤ 5 ∧
    (∀ nft ∈ getFilteredData LeaderboardTab.deaths
        [⟨1, 5, 0, 10, false, false, [], ""⟩, ⟨2, 1, 0, 999, false, false, [], ""⟩],
       nft ∈ [⟨1, 5, 0, 10, false, false, [], ""⟩, ⟨2, 1, 0, 999, false, false, [], ""⟩] ∧
       effectiveAlive nft.isAlive nft.isDead nft.timeLeft = false) :=
  claim_C8_amended [⟨1, 5, 0, 10, false, false, [], ""⟩, ⟨2, 1, 0, 999, false, false, [], ""⟩]

/-- C9 counterexample: in the part_004 sequential pass, a failing token read is
followed by a backoff sleep of only 100 ms — less than the claimed minimum of
1 second — before the pass continues (the trace of a one-token pass whose read
fails is the 50 ms pacing sleep followed by the 100 ms failure sleep). -/
theorem claim_C9_counterexample :
    (processNFTsSequentially_p4 300000 ⟨fun _ => none, fun _ => none, 0⟩ [1] []).sleeps
      = [50, 100] ∧ (100 : Nat) < 1000 := by
  exact ⟨by decide, by decide⟩

/-- C9 (amended): in both sequential passes a failing token read is recorded as
absent (it contributes no result) and the pass continues with the remaining
items against an unchanged cache; the failure backoff before continuing is
1000 ms (at least one second) in the part_003 pass but only 100 ms in the
part_004 pass. -/
theorem claim_C9_amended :
    (∀ (ttl : Nat) (env : SeqEnv) (tokenId : Nat) (rest : List Nat)
       (cache : List (Nat × CacheEntry LBEntry)),
       cacheLookup cache tokenId = none → env.dataOracle tokenId = none →
       processNFTsSequentially_p3 ttl env (tokenId :: rest) cache
         = ⟨(processNFTsSequentially_p3 ttl env rest cache).results,
            (processNFTsSequentially_p3 ttl env rest cache).cache,
            tokenId :: (processNFTsSequentially_p3 ttl env rest cache).reads,
            (processNFTsSequentially_p3 ttl env rest cache).ownerReads,
            100 :: 1000 :: (processNFTsSequentially_p3 ttl env rest cache).sleeps⟩) ∧
    (∀ (ttl : Nat) (env : SeqEnv) (tokenId : Nat) (rest : List Nat)
       (cache : List (Nat × CacheEntry P4Entry)),
       cacheLookup cache tokenId = none → env.dataOracle tokenId = none →
       processNFTsSequentially_p4 ttl env (tokenId :: rest) cache
         = ⟨(processNFTsSequentially_p4 ttl env rest cache).results,
            (processNFTsSequentially_p4 ttl env rest cache).cache,
            tokenId :: (processNFTsSequentially_p4 ttl env rest cache).reads,
            (processNFTsSequentially_p4 ttl env rest cache).ownerReads,
            50 :: 100 :: (processNFTsSequentially_p4 ttl env rest cache).sleeps⟩) := by
  constructor
  · intro ttl env tokenId rest cache hmiss hfail
    simp [processNFTsSequentially_p3, seqStep_p3, seqFetch_p3, hmiss, hfail]
  · intro ttl env tokenId rest cache hmiss hfail
    simp [processNFTsSequentially_p4, seqStep_p4, seqFetch_p4, hmiss, hfail]

/-- C9 amended witness: both failure equations evaluated on a concrete
one-token pass with an empty cache and a failing read oracle. -/
theorem claim_C9_amended_witness :
    processNFTsSequentially_p3 120000 ⟨fun _ => none, fun _ => none, 0⟩ [1] []
      = ⟨(processNFTsSequentially_p3 120000 ⟨fun _ => none, fun _ => none, 0⟩ [] []).results,
         (processNFTsSequentially_p3 120000 ⟨fun _ => none, fun _ => none, 0⟩ [] []).cache,
         1 :: (processNFTsSequentially_p3 120000 ⟨fun _ => none, fun _ => none, 0⟩ [] []).reads,
         (processNFTsSequentially_p3 120000 ⟨fun _ => none, fun _ => none, 0⟩ [] []).ownerReads,
         100 :: 1000 ::
           (processNFTsSequentially_p3 120000 ⟨fun _ => none, fun _ => none, 0⟩ [] []).sleeps⟩ ∧
    processNFTsSequentially_p4 300000 ⟨fun _ => none, fun _ => none, 0⟩ [2] []
      = ⟨(processNFTsSequentially_p4 300000 ⟨fun _ => none, fun _ => none, 0⟩ [] []).results,
         (processNFTsSequentially_p4 300000 ⟨fun _ => none, fun _ => none, 0⟩ [] []).cache,
         2 :: (processNFTsSequentially_p4 300000 ⟨fun _ => none, fun _ => none, 0⟩ [] []).reads,
         (processNFTsSequentially_p4 300000 ⟨fun _ => none, fun _ => none, 0⟩ [] []).ownerReads,
         50 :: 100 ::
           (processNFTsSequentially_p4 300000 ⟨fun _ => none, fun _ => none, 0⟩ [] []).sleeps⟩ :=
  ⟨claim_C9_amended.1 120000 ⟨fun _ => none, fun _ => none, 0⟩ 1 [] [] (by decide) rfl,
   claim_C9_amended.2 300000 ⟨fun _ => none, fun _ => none, 0⟩ 2 [] [] (by decide) rfl⟩

end Bombandak
